import Mathlib

/-!
Shallow embedding of `src/dashboard.js` (jenkins-dashboard): a terminal
status dashboard for Kubernetes pods and StatefulSets.  The derivation
functions (`formatUptime`, `getStatusColor`, `formatRestartInfo`,
`formatHealthStatus`), the summary health verdict of `printSummary`, the
owner-reference affiliation test of `printPodInfo`, the two fetchers
(`getJenkinsPods`, `getStatefulSets`) and the `run` control flow are
translated here as executable Lean definitions.  JavaScript numbers on the
relevant paths are integers (millisecond differences of Date values,
counts), so they are modelled as `Int`/`Nat`; JS `Math.floor(a / b)` with
`b > 0` is `Int.fdiv`, and the JS remainder `%` (sign of the dividend) is
`Int.tmod`.  Absent (`undefined`/`null`) fields are `Option`.
-/

/-! ## ANSI colors (the `colors` table of dashboard.js) -/

def colorReset : String := "\x1b[0m"

def colorBright : String := "\x1b[1m"

def colorDim : String := "\x1b[2m"

def colorRed : String := "\x1b[31m"

def colorGreen : String := "\x1b[32m"

def colorYellow : String := "\x1b[33m"

def colorBlue : String := "\x1b[34m"

def colorMagenta : String := "\x1b[35m"

def colorCyan : String := "\x1b[36m"

def colorWhite : String := "\x1b[37m"

/-! ## Data model (the resource documents consumed by the dashboard) -/

/-- An owner reference of a pod (`pod.metadata.ownerReferences[i]`). -/
structure OwnerRef where
  kind : String
  name : String
deriving Repr, DecidableEq

/-- A pod condition (`pod.status.conditions[i]`): a type tag and a
status string (normally "True"/"False"). -/
structure Condition where
  type : String
  status : String
deriving Repr, DecidableEq

/-- A container status (`pod.status.containerStatuses[i]`).  The
last-termination timestamp is the instant of
`lastState.terminated.finishedAt`, in ms. -/
structure ContainerStatus where
  name : String
  image : String
  ready : Bool
  restartCount : Nat
  lastTerminatedAt : Option Int
deriving Repr, DecidableEq

/-- A pod document, restricted to the fields dashboard.js reads.
Timestamps are instants in milliseconds (JS `Date` values). -/
structure Pod where
  name : String
  phase : String
  nodeName : Option String
  startTime : Option Int
  ownerReferences : Option (List OwnerRef)
  containerStatuses : Option (List ContainerStatus)
  conditions : Option (List Condition)
deriving Repr, DecidableEq

/-- A StatefulSet document, restricted to the fields dashboard.js reads. -/
structure StatefulSet where
  name : String
  replicas : Option Nat
  readyReplicas : Option Nat
  currentReplicas : Option Nat
deriving Repr, DecidableEq

/-! ## formatUptime (dashboard.js lines 81-93) -/

/-- Milliseconds in a day: 1000*60*60*24. -/
def msPerDay : Int := 86400000

/-- Milliseconds in an hour: 1000*60*60. -/
def msPerHour : Int := 3600000

/-- Milliseconds in a minute: 1000*60. -/
def msPerMinute : Int := 60000

/-- `days` of formatUptime: `Math.floor(diffMs / (1000*60*60*24))`. -/
def uptimeDays (diffMs : Int) : Int :=
  Int.fdiv diffMs msPerDay

/-- `hours` of formatUptime:
`Math.floor((diffMs % (1000*60*60*24)) / (1000*60*60))`. -/
def uptimeHours (diffMs : Int) : Int :=
  Int.fdiv (Int.tmod diffMs msPerDay) msPerHour

/-- `minutes` of formatUptime:
`Math.floor((diffMs % (1000*60*60)) / (1000*60))`. -/
def uptimeMinutes (diffMs : Int) : Int :=
  Int.fdiv (Int.tmod diffMs msPerHour) msPerMinute

/-- The body of `formatUptime` after `diffMs = now - start` has been
computed: the three-way conditional on days and hours. -/
def formatUptimeMs (diffMs : Int) : String :=
  if uptimeDays diffMs > 0 then
    s!"{uptimeDays diffMs}d {uptimeHours diffMs}h {uptimeMinutes diffMs}m"
  else if uptimeHours diffMs > 0 then
    s!"{uptimeHours diffMs}h {uptimeMinutes diffMs}m"
  else
    s!"{uptimeMinutes diffMs}m"

/-- `formatUptime(startTime)`: `diffMs = now - start`, with the reference
"now" made an explicit parameter (both instants in ms). -/
def formatUptime (startTime now : Int) : String :=
  formatUptimeMs (now - startTime)

/-! ## getStatusColor (dashboard.js lines 95-103) -/

/-- `getStatusColor(status)`: the switch over the phase string. -/
def getStatusColor (status : String) : String :=
  if status = "Running" then colorGreen
  else if status = "Pending" ∨ status = "ContainerCreating" then colorYellow
  else if status = "Failed" ∨ status = "CrashLoopBackOff" ∨ status = "ImagePullBackOff" then colorRed
  else if status = "Succeeded" then colorCyan
  else colorDim

/-- The five semantic severity classes of the spec: each color used by
`getStatusColor` stands for one of them. -/
inductive StatusClass where
  | ok
  | warn
  | error
  | info
  | muted
deriving Repr, DecidableEq

/-- The color rendering each severity class (green is ok, yellow warn,
red error, cyan info, dim muted). -/
def classColor : StatusClass → String
  | .ok => colorGreen
  | .warn => colorYellow
  | .error => colorRed
  | .info => colorCyan
  | .muted => colorDim

/-- Modelled from the spec: the intended phase-to-class mapping
(Running is ok; Pending and ContainerCreating warn; Failed,
CrashLoopBackOff and ImagePullBackOff error; Succeeded info; everything
else muted). -/
def statusClassSpec (status : String) : StatusClass :=
  if status = "Running" then .ok
  else if status = "Pending" ∨ status = "ContainerCreating" then .warn
  else if status = "Failed" ∨ status = "CrashLoopBackOff" ∨ status = "ImagePullBackOff" then .error
  else if status = "Succeeded" then .info
  else .muted

/-! ## formatRestartInfo (dashboard.js lines 105-113) -/

/-- Severity classes used by the restart summary (red is error, yellow
warn, cyan info). -/
inductive RestartSeverity where
  | error
  | warn
  | info
deriving Repr, DecidableEq

/-- Modelled from the spec: the severity of a positive restart count
(more than 5 is error, more than 2 warn, otherwise info). -/
def restartSeverity (restartCount : Nat) : RestartSeverity :=
  if restartCount > 5 then .error
  else if restartCount > 2 then .warn
  else .info

/-- The color rendering each restart severity. -/
def restartSeverityColor : RestartSeverity → String
  | .error => colorRed
  | .warn => colorYellow
  | .info => colorCyan

/-- The `timeAgo` value of formatRestartInfo:
`lastRestartTime ? this.formatUptime(lastRestartTime) : 'unknown'`. -/
def restartTimeAgo (lastRestartTime : Option Int) (now : Int) : String :=
  match lastRestartTime with
  | some t => formatUptime t now
  | none => "unknown"

/-- `formatRestartInfo(restartCount, lastRestartTime)`, with the
reference "now" explicit. -/
def formatRestartInfo (restartCount : Nat) (lastRestartTime : Option Int) (now : Int) : String :=
  if restartCount = 0 then
    colorGreen ++ "No restarts" ++ colorReset
  else
    let restartColor :=
      if restartCount > 5 then colorRed
      else if restartCount > 2 then colorYellow
      else colorCyan
    let timeAgo := restartTimeAgo lastRestartTime now
    s!"{restartColor}{restartCount} restarts{colorReset} {colorDim}(last: {timeAgo} ago){colorReset}"

/-! ## formatHealthStatus (dashboard.js lines 115-138) -/

/-- The fragment pushed for a present Ready condition. -/
def readyFragment (r : Condition) : String :=
  let icon := if r.status = "True" then "✅" else "❌"
  let color := if r.status = "True" then colorGreen else colorRed
  s!"{color}Ready: {icon}{colorReset}"

/-- The fragment pushed for a satisfied PodScheduled condition. -/
def scheduledFragment : String :=
  colorGreen ++ "Scheduled: ✅" ++ colorReset

/-- The fragment pushed for a satisfied Initialized condition. -/
def initializedFragment : String :=
  colorGreen ++ "Initialized: ✅" ++ colorReset

/-- What the `if (ready) ... health.push(...)` step contributes, as a
function of the `ready` find result: a fragment whenever present. -/
def fragmentsOfReady : Option Condition → List String
  | some r => [readyFragment r]
  | none => []

/-- What the `if (scheduled && scheduled.status === 'True')` step
contributes: a fragment only when found and satisfied. -/
def fragmentsOfScheduled : Option Condition → List String
  | some s => if s.status = "True" then [scheduledFragment] else []
  | none => []

/-- What the `if (initialized && initialized.status === 'True')` step
contributes: a fragment only when found and satisfied. -/
def fragmentsOfInitialized : Option Condition → List String
  | some i => if i.status = "True" then [initializedFragment] else []
  | none => []

/-- The `health` array built by formatHealthStatus from a non-absent
condition list: Ready (first match) always when present, PodScheduled
and Initialized only when their status is "True". -/
def healthFragments (cs : List Condition) : List String :=
  fragmentsOfReady (cs.find? (fun c => c.type = "Ready")) ++
  fragmentsOfScheduled (cs.find? (fun c => c.type = "PodScheduled")) ++
  fragmentsOfInitialized (cs.find? (fun c => c.type = "Initialized"))

/-- `formatHealthStatus(conditions)`: "No health data" for an absent or
empty list, otherwise the fragments joined with " | ", or "Unknown" when
the join is empty. -/
def formatHealthStatus (conditions : Option (List Condition)) : String :=
  match conditions with
  | none => colorDim ++ "No health data" ++ colorReset
  | some cs =>
    if cs.length = 0 then colorDim ++ "No health data" ++ colorReset
    else if String.intercalate " | " (healthFragments cs) = "" then
      colorDim ++ "Unknown" ++ colorReset
    else String.intercalate " | " (healthFragments cs)

/-! ## StatefulSet affiliation (dashboard.js lines 158-159) -/

/-- `pod.metadata.ownerReferences?.some(ref => ref.kind === 'StatefulSet')`:
`undefined` (absent sequence) is falsy. -/
def isStatefulSetPod (ownerReferences : Option (List OwnerRef)) : Bool :=
  (ownerReferences.map (fun refs => refs.any (fun r => r.kind = "StatefulSet"))).getD false

/-- `isStatefulSet ? ownerReferences.find(ref => ref.kind === 'StatefulSet')?.name : null`. -/
def statefulSetNameOf (ownerReferences : Option (List OwnerRef)) : Option String :=
  if isStatefulSetPod ownerReferences then
    ((ownerReferences.getD []).find? (fun r => r.kind = "StatefulSet")).map (fun r => r.name)
  else none

/-! ## printSummary health verdict (dashboard.js lines 209-242) -/

/-- `runningPods`: `pods.filter(p => p.status.phase === 'Running').length`. -/
def runningPods (pods : List Pod) : Nat :=
  (pods.filter (fun p => p.phase = "Running")).length

/-- `failedPods`: `pods.filter(p => p.status.phase === 'Failed').length`. -/
def failedPods (pods : List Pod) : Nat :=
  (pods.filter (fun p => p.phase = "Failed")).length

/-- The `healthStatus` ternary of printSummary: HEALTHY when every pod
runs and there is at least one, else UNHEALTHY when some pod failed,
else DEGRADED. -/
def summaryHealthStatus (pods : List Pod) : String :=
  if runningPods pods = pods.length ∧ pods.length > 0 then "HEALTHY"
  else if failedPods pods > 0 then "UNHEALTHY"
  else "DEGRADED"

/-! ## Fetchers (dashboard.js lines 53-79) -/

/-- JS `haystack.includes(needle)` on the character lists. -/
def listHasInfix (haystack needle : List Char) : Bool :=
  match haystack with
  | [] => needle.isEmpty
  | _ :: tail => needle.isPrefixOf haystack || listHasInfix tail needle

/-- JS `msg.includes(pat)`: substring containment. -/
def includesSubstr (msg pat : String) : Bool :=
  listHasInfix msg.toList pat.toList

/-- The parsed shape of a `kubectl get pods -o json` response: the
`items` field may be missing. -/
structure PodListDoc where
  items : Option (List Pod)
deriving Repr, DecidableEq

/-- The parsed shape of a `kubectl get statefulsets -o json` response. -/
structure StsListDoc where
  items : Option (List StatefulSet)
deriving Repr, DecidableEq

/-- `getJenkinsPods()`: the kubectl invocation and JSON parsing are
abstracted as inputs (`execResult` is the `execAsync` outcome carrying
stdout or an error message; `parseJson` is `JSON.parse`, which either
yields a document or throws a message).  The try block computes
`data.items || []`; the catch returns `[]` when the error message
includes "No resources found" and rethrows otherwise. -/
def getJenkinsPods (execResult : Except String String)
    (parseJson : String → Except String PodListDoc) : Except String (List Pod) :=
  let tryBlock : Except String (List Pod) :=
    match execResult with
    | .error e => .error e
    | .ok stdout =>
      match parseJson stdout with
      | .error e => .error e
      | .ok data => .ok (data.items.getD [])
  match tryBlock with
  | .ok items => .ok items
  | .error msg =>
    if includesSubstr msg "No resources found" then .ok []
    else .error msg

/-- `getStatefulSets()`: same structure as `getJenkinsPods` over the
StatefulSet document shape. -/
def getStatefulSets (execResult : Except String String)
    (parseJson : String → Except String StsListDoc) : Except String (List StatefulSet) :=
  let tryBlock : Except String (List StatefulSet) :=
    match execResult with
    | .error e => .error e
    | .ok stdout =>
      match parseJson stdout with
      | .error e => .error e
      | .ok data => .ok (data.items.getD [])
  match tryBlock with
  | .ok items => .ok items
  | .error msg =>
    if includesSubstr msg "No resources found" then .ok []
    else .error msg

/-! ## run (dashboard.js lines 244-277) -/

/-- The observable output blocks of one `run()` cycle, in emission
order. -/
inductive RunEvent where
  | header
  | kubectlMissing
  | searching
  | noResources
  | podInfo (name : String)
  | summary
  | errorLine (msg : String)
deriving Repr, DecidableEq

/-- Is the event a per-pod detail block? -/
def RunEvent.isPodInfo : RunEvent → Bool
  | .podInfo _ => true
  | _ => false

/-- One `run()` cycle as a function of the kubectl availability check
and the two fetch outcomes (the `Promise.all` join fails with the first
failure).  Returns the emitted blocks and the process exit status
(`process.exit(1)` on kubectl failure or a caught error, 0 otherwise). -/
def run (kubectlOk : Bool)
    (podsResult : Except String (List Pod))
    (stsResult : Except String (List StatefulSet)) : List RunEvent × Nat :=
  if !kubectlOk then ([.header, .kubectlMissing], 1)
  else
    let joined : Except String (List Pod × List StatefulSet) :=
      match podsResult with
      | .error e => .error e
      | .ok pods =>
        match stsResult with
        | .error e => .error e
        | .ok sts => .ok (pods, sts)
    match joined with
    | .error msg => ([.header, .searching, .errorLine msg], 1)
    | .ok (pods, sts) =>
      if pods.length = 0 ∧ sts.length = 0 then
        ([.header, .searching, .noResources], 0)
      else
        ([.header, .searching] ++ pods.map (fun p => RunEvent.podInfo p.name) ++ [.summary], 0)

/-! ## Theorems -/

/-- C1: the uptime formatter does NOT clamp a future start timestamp to
"0m".  One minute after "now" the code computes `diffMs = -60000` and
renders "-1m", a negative minutes field, contradicting the spec's
requirement that zero or negative elapsed time is clamped to zero
minutes.  (At exactly "now" the output is "0m".) -/
theorem formatUptime_future_renders_negative :
    formatUptime 60000 0 = "-1m" ∧
    formatUptime 60000 0 ≠ "0m" ∧
    formatUptime 0 0 = "0m" := by
  refine ⟨by decide, by decide, by decide⟩

/-- C2: the overall health verdict is HEALTHY exactly when there is at
least one pod and every pod has phase "Running"; UNHEALTHY exactly when
that fails and some pod has phase "Failed"; DEGRADED in every remaining
case (the zero-pod case included). -/
theorem summaryHealthStatus_verdict (pods : List Pod) :
    (summaryHealthStatus pods = "HEALTHY" ↔
      0 < pods.length ∧ runningPods pods = pods.length) ∧
    (summaryHealthStatus pods = "UNHEALTHY" ↔
      ¬(0 < pods.length ∧ runningPods pods = pods.length) ∧ 0 < failedPods pods) ∧
    (summaryHealthStatus pods = "DEGRADED" ↔
      ¬(0 < pods.length ∧ runningPods pods = pods.length) ∧ failedPods pods = 0) := by
  unfold summaryHealthStatus
  split_ifs with h1 h2
  · exact ⟨⟨fun _ => ⟨h1.2, h1.1⟩, fun _ => rfl⟩,
      ⟨fun h => absurd h (by decide), fun h => absurd ⟨h1.2, h1.1⟩ h.1⟩,
      ⟨fun h => absurd h (by decide), fun h => absurd ⟨h1.2, h1.1⟩ h.1⟩⟩
  · refine ⟨⟨fun h => absurd h (by decide), fun h => absurd ⟨h.2, h.1⟩ h1⟩,
      ⟨fun _ => ⟨fun hc => h1 ⟨hc.2, hc.1⟩, h2⟩, fun _ => rfl⟩,
      ⟨fun h => absurd h (by decide), fun h => absurd h2 (by omega)⟩⟩
  · refine ⟨⟨fun h => absurd h (by decide), fun h => absurd ⟨h.2, h.1⟩ h1⟩,
      ⟨fun h => absurd h (by decide), fun h => absurd h.2 (by omega)⟩,
      ⟨fun _ => ⟨fun hc => h1 ⟨hc.2, hc.1⟩, by omega⟩, fun _ => rfl⟩⟩

/-- C7: with kubectl available and both fetches succeeding with empty
lists, the run emits the "no resources found" outcome, renders no
per-pod detail block and no summary block, and completes with exit
status 0. -/
theorem run_no_resources_outcome :
    run true (Except.ok []) (Except.ok []) = ([.header, .searching, .noResources], 0) ∧
    RunEvent.noResources ∈ (run true (Except.ok []) (Except.ok [])).1 ∧
    (run true (Except.ok []) (Except.ok [])).1.filter RunEvent.isPodInfo = [] ∧
    (run true (Except.ok []) (Except.ok [])).1.contains RunEvent.summary = false ∧
    (run true (Except.ok []) (Except.ok [])).2 = 0 := by
  refine ⟨rfl, by decide, by decide, by decide, rfl⟩

/-- C8: status color classification is total and matches the spec's
five-class mapping: every phase string is rendered with the color of
exactly the class the spec assigns, the seven recognized phases map to
their stated classes, and every unrecognized string maps to muted. -/
theorem getStatusColor_classification :
    (∀ status : String, getStatusColor status = classColor (statusClassSpec status)) ∧
    (statusClassSpec "Running" = .ok ∧
     statusClassSpec "Pending" = .warn ∧ statusClassSpec "ContainerCreating" = .warn ∧
     statusClassSpec "Failed" = .error ∧ statusClassSpec "CrashLoopBackOff" = .error ∧
     statusClassSpec "ImagePullBackOff" = .error ∧
     statusClassSpec "Succeeded" = .info) ∧
    (∀ status : String,
      status ∉ (["Running", "Pending", "ContainerCreating", "Failed", "CrashLoopBackOff",
                 "ImagePullBackOff", "Succeeded"] : List String) →
      statusClassSpec status = .muted) := by
  refine ⟨?_, ⟨by decide, by decide, by decide, by decide, by decide, by decide, by decide⟩, ?_⟩
  · intro status
    unfold getStatusColor statusClassSpec
    split_ifs <;> rfl
  · intro status hs
    simp only [List.mem_cons, List.not_mem_nil, or_false, not_or] at hs
    unfold statusClassSpec
    split_ifs with h1 h2 h3 h4 <;> first
      | rfl
      | (exfalso; tauto)

/-- C8 witness: the classification evaluated at the unrecognized phase
"Bogus" and the recognized phase "Running". -/
theorem getStatusColor_classification_witness :
    getStatusColor "Bogus" = classColor (statusClassSpec "Bogus") ∧
    statusClassSpec "Bogus" = .muted := by
  exact ⟨getStatusColor_classification.1 "Bogus",
    getStatusColor_classification.2.2 "Bogus" (by decide)⟩

/-- For a positive divisor, the floor division used by `Math.floor` of a
day count equals Euclidean division. -/
theorem uptimeDays_eq_ediv (diffMs : Int) :
    uptimeDays diffMs = diffMs / 86400000 := by
  unfold uptimeDays msPerDay
  exact Int.fdiv_eq_ediv _ (by decide)

/-- For non-negative elapsed time the hour field is the Euclidean
leftover-hours value. -/
theorem uptimeHours_eq_ediv (diffMs : Int) (h : 0 ≤ diffMs) :
    uptimeHours diffMs = diffMs % 86400000 / 3600000 := by
  unfold uptimeHours msPerDay msPerHour
  rw [Int.tmod_eq_emod h (by decide)]
  exact Int.fdiv_eq_ediv _ (by decide)

/-- For non-negative elapsed time the minute field is the Euclidean
leftover-minutes value. -/
theorem uptimeMinutes_eq_ediv (diffMs : Int) (h : 0 ≤ diffMs) :
    uptimeMinutes diffMs = diffMs % 3600000 / 60000 := by
  unfold uptimeMinutes msPerHour msPerMinute
  rw [Int.tmod_eq_emod h (by decide)]
  exact Int.fdiv_eq_ediv _ (by decide)

/-- C3: for every non-negative elapsed duration the three fields are
the whole days, leftover whole hours and leftover whole minutes of the
duration (they decompose it with a sub-minute remainder), the hour
field lies in [0, 24), the minute field in [0, 60), and the output is
the day/hour/minute pattern when days are positive, the hour/minute
pattern when days are zero and hours positive, and the minutes pattern
otherwise. -/
theorem formatUptime_nonneg_pattern (diffMs : Int) (h : 0 ≤ diffMs) :
    (diffMs = uptimeDays diffMs * msPerDay + uptimeHours diffMs * msPerHour
        + uptimeMinutes diffMs * msPerMinute + diffMs % msPerMinute ∧
      0 ≤ diffMs % msPerMinute ∧ diffMs % msPerMinute < msPerMinute) ∧
    (0 ≤ uptimeDays diffMs ∧ 0 ≤ uptimeHours diffMs ∧ uptimeHours diffMs < 24 ∧
      0 ≤ uptimeMinutes diffMs ∧ uptimeMinutes diffMs < 60) ∧
    (0 < uptimeDays diffMs →
      formatUptimeMs diffMs =
        s!"{uptimeDays diffMs}d {uptimeHours diffMs}h {uptimeMinutes diffMs}m") ∧
    (uptimeDays diffMs = 0 → 0 < uptimeHours diffMs →
      formatUptimeMs diffMs = s!"{uptimeHours diffMs}h {uptimeMinutes diffMs}m") ∧
    (uptimeDays diffMs = 0 → uptimeHours diffMs = 0 →
      formatUptimeMs diffMs = s!"{uptimeMinutes diffMs}m") := by
  have hD := uptimeDays_eq_ediv diffMs
  have hH := uptimeHours_eq_ediv diffMs h
  have hM := uptimeMinutes_eq_ediv diffMs h
  refine ⟨?_, ?_, ?_, ?_, ?_⟩
  · rw [hD, hH, hM]
    unfold msPerDay msPerHour msPerMinute
    omega
  · rw [hD, hH, hM]
    omega
  · intro hd
    unfold formatUptimeMs
    rw [if_pos hd]
  · intro hd hh
    unfold formatUptimeMs
    rw [if_neg (by omega), if_pos hh]
  · intro hd hh
    unfold formatUptimeMs
    rw [if_neg (by omega), if_neg (by omega)]

/-- C3 witness: the pattern theorem applied to 1 day, 1 hour, 1 minute
and 30 seconds of elapsed time. -/
theorem formatUptime_nonneg_pattern_witness :
    (0 : Int) ≤ 90090000 ∧ formatUptimeMs 90090000 = "1d 1h 1m" := by
  refine ⟨by decide, ?_⟩
  have h := (formatUptime_nonneg_pattern 90090000 (by decide)).2.2.1 (by decide)
  rw [h]
  decide

/-- The severity coloring of the spec agrees with the nested ternary of
formatRestartInfo. -/
theorem restartSeverityColor_eq (restartCount : Nat) :
    restartSeverityColor (restartSeverity restartCount) =
      if restartCount > 5 then colorRed
      else if restartCount > 2 then colorYellow
      else colorCyan := by
  unfold restartSeverity restartSeverityColor
  split_ifs <;> rfl

/-- C4: a zero restart count always reports "No restarts" whatever the
last-termination timestamp; a positive count is colored by its severity
(error above 5, warn above 2, info otherwise) and carries the time since
the last termination, formatted by the uptime formatter when the
timestamp is present and as "unknown" when absent. -/
theorem formatRestartInfo_spec (restartCount : Nat) (lastRestartTime : Option Int) (now : Int) :
    (restartCount = 0 →
      formatRestartInfo restartCount lastRestartTime now =
        colorGreen ++ "No restarts" ++ colorReset) ∧
    (0 < restartCount →
      formatRestartInfo restartCount lastRestartTime now =
        s!"{restartSeverityColor (restartSeverity restartCount)}{restartCount} restarts{colorReset} {colorDim}(last: {restartTimeAgo lastRestartTime now} ago){colorReset}" ∧
      (∀ t, lastRestartTime = some t → restartTimeAgo lastRestartTime now = formatUptime t now) ∧
      (lastRestartTime = none → restartTimeAgo lastRestartTime now = "unknown")) := by
  constructor
  · intro h0
    unfold formatRestartInfo
    rw [if_pos h0]
  · intro hpos
    refine ⟨?_, ?_, ?_⟩
    · unfold formatRestartInfo
      rw [if_neg (by omega), restartSeverityColor_eq]
    · intro t ht
      rw [ht]
      rfl
    · intro ht
      rw [ht]
      rfl

/-- C4 witness: the restart summary evaluated at count 0 with a present
timestamp, and at count 7 with an absent timestamp. -/
theorem formatRestartInfo_spec_witness :
    formatRestartInfo 0 (some 5) 0 = colorGreen ++ "No restarts" ++ colorReset ∧
    formatRestartInfo 7 none 0 =
      s!"{restartSeverityColor (restartSeverity 7)}7 restarts{colorReset} {colorDim}(last: {restartTimeAgo none 0} ago){colorReset}" ∧
    restartTimeAgo (none : Option Int) 0 = "unknown" := by
  exact ⟨(formatRestartInfo_spec 0 (some 5) 0).1 rfl,
    ((formatRestartInfo_spec 7 none 0).2 (by omega)).1,
    ((formatRestartInfo_spec 7 none 0).2 (by omega)).2.2 rfl⟩


/-- The scheduled fragment never coincides with a Ready fragment. -/
theorem scheduledFragment_ne_readyFragment (r : Condition) :
    scheduledFragment ≠ readyFragment r := by
  unfold scheduledFragment readyFragment
  by_cases h : r.status = "True" <;> simp only [h, ite_true, ite_false] <;> decide

/-- The initialized fragment never coincides with a Ready fragment. -/
theorem initializedFragment_ne_readyFragment (r : Condition) :
    initializedFragment ≠ readyFragment r := by
  unfold initializedFragment readyFragment
  by_cases h : r.status = "True" <;> simp only [h, ite_true, ite_false] <;> decide

/-- The scheduled and initialized fragments differ. -/
theorem scheduledFragment_ne_initializedFragment :
    scheduledFragment ≠ initializedFragment := by
  decide

/-- The scheduled fragment only arises from the scheduled step, and only
for a found, satisfied condition. -/
theorem scheduledFragment_mem_iff (o : Option Condition) :
    scheduledFragment ∈ fragmentsOfScheduled o ↔
      ∃ s, o = some s ∧ s.status = "True" := by
  cases o with
  | none => simp [fragmentsOfScheduled]
  | some s =>
    by_cases h : s.status = "True" <;> simp [fragmentsOfScheduled, h]

/-- The initialized fragment only arises from the initialized step, and
only for a found, satisfied condition. -/
theorem initializedFragment_mem_iff (o : Option Condition) :
    initializedFragment ∈ fragmentsOfInitialized o ↔
      ∃ i, o = some i ∧ i.status = "True" := by
  cases o with
  | none => simp [fragmentsOfInitialized]
  | some i =>
    by_cases h : i.status = "True" <;> simp [fragmentsOfInitialized, h]

/-- The Ready step never produces the scheduled fragment. -/
theorem scheduledFragment_not_mem_ready (o : Option Condition) :
    scheduledFragment ∉ fragmentsOfReady o := by
  cases o with
  | none => simp [fragmentsOfReady]
  | some r =>
    simp only [fragmentsOfReady, List.mem_singleton]
    exact scheduledFragment_ne_readyFragment r

/-- The initialized step never produces the scheduled fragment. -/
theorem scheduledFragment_not_mem_initialized (o : Option Condition) :
    scheduledFragment ∉ fragmentsOfInitialized o := by
  cases o with
  | none => simp [fragmentsOfInitialized]
  | some i =>
    by_cases h : i.status = "True" <;>
      simp [fragmentsOfInitialized, h, scheduledFragment_ne_initializedFragment]

/-- The Ready step never produces the initialized fragment. -/
theorem initializedFragment_not_mem_ready (o : Option Condition) :
    initializedFragment ∉ fragmentsOfReady o := by
  cases o with
  | none => simp [fragmentsOfReady]
  | some r =>
    simp only [fragmentsOfReady, List.mem_singleton]
    exact initializedFragment_ne_readyFragment r

/-- The scheduled step never produces the initialized fragment. -/
theorem initializedFragment_not_mem_scheduled (o : Option Condition) :
    initializedFragment ∉ fragmentsOfScheduled o := by
  cases o with
  | none => simp [fragmentsOfScheduled]
  | some s =>
    by_cases h : s.status = "True" <;>
      simp [fragmentsOfScheduled, h]
    exact fun hmem => scheduledFragment_ne_initializedFragment hmem.symm

/-- C5: the health summary is never the empty string; an absent or empty
condition list reports "No health data"; a non-empty list whose
conditions produce no fragment reports "Unknown"; a found Ready
condition is always reported (whatever its status); found PodScheduled
and Initialized conditions are reported exactly when their status is
"True". -/
theorem formatHealthStatus_spec (conditions : Option (List Condition)) :
    formatHealthStatus conditions ≠ "" ∧
    (conditions = none →
      formatHealthStatus conditions = colorDim ++ "No health data" ++ colorReset) ∧
    (∀ cs, conditions = some cs → cs = [] →
      formatHealthStatus conditions = colorDim ++ "No health data" ++ colorReset) ∧
    (∀ cs, conditions = some cs → cs ≠ [] → healthFragments cs = [] →
      formatHealthStatus conditions = colorDim ++ "Unknown" ++ colorReset) ∧
    (∀ cs r, conditions = some cs →
      cs.find? (fun c => c.type = "Ready") = some r →
      readyFragment r ∈ healthFragments cs) ∧
    (∀ cs s, conditions = some cs →
      cs.find? (fun c => c.type = "PodScheduled") = some s →
      (scheduledFragment ∈ healthFragments cs ↔ s.status = "True")) ∧
    (∀ cs i, conditions = some cs →
      cs.find? (fun c => c.type = "Initialized") = some i →
      (initializedFragment ∈ healthFragments cs ↔ i.status = "True")) := by
  refine ⟨?_, ?_, ?_, ?_, ?_, ?_, ?_⟩
  · cases conditions with
    | none => decide
    | some cs =>
      simp only [formatHealthStatus]
      split_ifs with h1 h2
      · decide
      · decide
      · exact h2
  · intro h
    rw [h]
    rfl
  · intro cs hcs hnil
    rw [hcs, hnil]
    rfl
  · intro cs hcs hne hfrag
    rw [hcs]
    simp only [formatHealthStatus]
    rw [if_neg (by simpa [List.length_eq_zero] using hne), hfrag]
    rfl
  · intro cs r hcs hr
    unfold healthFragments
    rw [hr]
    simp [fragmentsOfReady]
  · intro cs s hcs hs
    unfold healthFragments
    rw [hs]
    simp only [List.mem_append]
    constructor
    · rintro ((hmem | hmem) | hmem)
      · exact absurd hmem (scheduledFragment_not_mem_ready _)
      · rcases (scheduledFragment_mem_iff _).mp hmem with ⟨s', hs', hstat⟩
        cases hs'
        exact hstat
      · exact absurd hmem (scheduledFragment_not_mem_initialized _)
    · intro hstat
      exact Or.inl (Or.inr ((scheduledFragment_mem_iff _).mpr ⟨s, rfl, hstat⟩))
  · intro cs i hcs hi
    unfold healthFragments
    rw [hi]
    simp only [List.mem_append]
    constructor
    · rintro ((hmem | hmem) | hmem)
      · exact absurd hmem (initializedFragment_not_mem_ready _)
      · exact absurd hmem (initializedFragment_not_mem_scheduled _)
      · rcases (initializedFragment_mem_iff _).mp hmem with ⟨i', hi', hstat⟩
        cases hi'
        exact hstat
    · intro hstat
      exact Or.inr ((initializedFragment_mem_iff _).mpr ⟨i, rfl, hstat⟩)

/-- C5 witness: the health summary on a list with an unsatisfied Ready,
a satisfied PodScheduled and an unsatisfied Initialized condition, and
on the empty and absent lists. -/
theorem formatHealthStatus_spec_witness :
    formatHealthStatus (some [⟨"Ready", "False"⟩, ⟨"PodScheduled", "True"⟩,
      ⟨"Initialized", "False"⟩]) ≠ "" ∧
    readyFragment ⟨"Ready", "False"⟩ ∈
      healthFragments [⟨"Ready", "False"⟩, ⟨"PodScheduled", "True"⟩, ⟨"Initialized", "False"⟩] ∧
    scheduledFragment ∈
      healthFragments [⟨"Ready", "False"⟩, ⟨"PodScheduled", "True"⟩, ⟨"Initialized", "False"⟩] ∧
    initializedFragment ∉
      healthFragments [⟨"Ready", "False"⟩, ⟨"PodScheduled", "True"⟩, ⟨"Initialized", "False"⟩] ∧
    formatHealthStatus (some []) = colorDim ++ "No health data" ++ colorReset ∧
    formatHealthStatus none = colorDim ++ "No health data" ++ colorReset := by
  refine ⟨(formatHealthStatus_spec _).1, ?_, ?_, ?_, ?_, ?_⟩
  · exact (formatHealthStatus_spec (some [⟨"Ready", "False"⟩, ⟨"PodScheduled", "True"⟩,
      ⟨"Initialized", "False"⟩])).2.2.2.2.1
      [⟨"Ready", "False"⟩, ⟨"PodScheduled", "True"⟩, ⟨"Initialized", "False"⟩]
      ⟨"Ready", "False"⟩ rfl (by decide)
  · exact ((formatHealthStatus_spec (some [⟨"Ready", "False"⟩, ⟨"PodScheduled", "True"⟩,
      ⟨"Initialized", "False"⟩])).2.2.2.2.2.1
      [⟨"Ready", "False"⟩, ⟨"PodScheduled", "True"⟩, ⟨"Initialized", "False"⟩]
      ⟨"PodScheduled", "True"⟩ rfl (by decide)).2 rfl
  · intro hmem
    have hfalse := ((formatHealthStatus_spec (some [⟨"Ready", "False"⟩,
      ⟨"PodScheduled", "True"⟩, ⟨"Initialized", "False"⟩])).2.2.2.2.2.2
      [⟨"Ready", "False"⟩, ⟨"PodScheduled", "True"⟩, ⟨"Initialized", "False"⟩]
      ⟨"Initialized", "False"⟩ rfl (by decide)).1 hmem
    exact absurd hfalse (by decide)
  · exact (formatHealthStatus_spec (some [])).2.2.1 [] rfl rfl
  · exact (formatHealthStatus_spec none).2.1 rfl

/-- Full case analysis of `getJenkinsPods` over its two abstracted
effects. -/
theorem getJenkinsPods_eq (execResult : Except String String)
    (parseJson : String → Except String PodListDoc) :
    getJenkinsPods execResult parseJson =
      match execResult with
      | .error msg =>
        if includesSubstr msg "No resources found" then .ok [] else .error msg
      | .ok stdout =>
        match parseJson stdout with
        | .error e =>
          if includesSubstr e "No resources found" then .ok [] else .error e
        | .ok data => .ok (data.items.getD []) := by
  rcases execResult with msg | stdout
  · rfl
  · rcases h : parseJson stdout with e | data <;> simp [getJenkinsPods, h]

/-- Full case analysis of `getStatefulSets` over its two abstracted
effects. -/
theorem getStatefulSets_eq (execResult : Except String String)
    (parseJson : String → Except String StsListDoc) :
    getStatefulSets execResult parseJson =
      match execResult with
      | .error msg =>
        if includesSubstr msg "No resources found" then .ok [] else .error msg
      | .ok stdout =>
        match parseJson stdout with
        | .error e =>
          if includesSubstr e "No resources found" then .ok [] else .error e
        | .ok data => .ok (data.items.getD []) := by
  rcases execResult with msg | stdout
  · rfl
  · rcases h : parseJson stdout with e | data <;> simp [getStatefulSets, h]

/-- C6: for both fetchers, an outcome whose error message carries the
control plane's "No resources found" marker yields the empty list with
no error, while every other failure (the kubectl invocation failing
without the marker, or the response failing to parse) propagates its
error to the caller; a parsed response yields its item list. -/
theorem fetchers_error_handling
    (execResult : Except String String)
    (parsePods : String → Except String PodListDoc)
    (parseSts : String → Except String StsListDoc) :
    (∀ msg, execResult = .error msg →
      (includesSubstr msg "No resources found" = true →
        getJenkinsPods execResult parsePods = .ok [] ∧
        getStatefulSets execResult parseSts = .ok []) ∧
      (includesSubstr msg "No resources found" = false →
        getJenkinsPods execResult parsePods = .error msg ∧
        getStatefulSets execResult parseSts = .error msg)) ∧
    (∀ stdout e, execResult = .ok stdout → parsePods stdout = .error e →
      (includesSubstr e "No resources found" = true →
        getJenkinsPods execResult parsePods = .ok []) ∧
      (includesSubstr e "No resources found" = false →
        getJenkinsPods execResult parsePods = .error e)) ∧
    (∀ stdout e, execResult = .ok stdout → parseSts stdout = .error e →
      (includesSubstr e "No resources found" = true →
        getStatefulSets execResult parseSts = .ok []) ∧
      (includesSubstr e "No resources found" = false →
        getStatefulSets execResult parseSts = .error e)) ∧
    (∀ stdout doc, execResult = .ok stdout → parsePods stdout = .ok doc →
      getJenkinsPods execResult parsePods = .ok (doc.items.getD [])) ∧
    (∀ stdout doc, execResult = .ok stdout → parseSts stdout = .ok doc →
      getStatefulSets execResult parseSts = .ok (doc.items.getD [])) := by
  refine ⟨?_, ?_, ?_, ?_, ?_⟩
  · intro msg hmsg
    subst hmsg
    constructor
    · intro hincl
      constructor <;> simp [getJenkinsPods_eq, getStatefulSets_eq, hincl]
    · intro hincl
      constructor <;> simp [getJenkinsPods_eq, getStatefulSets_eq, hincl]
  · intro stdout e hex hparse
    subst hex
    constructor <;> intro hincl <;> simp [getJenkinsPods_eq, hparse, hincl]
  · intro stdout e hex hparse
    subst hex
    constructor <;> intro hincl <;> simp [getStatefulSets_eq, hparse, hincl]
  · intro stdout doc hex hparse
    subst hex
    simp [getJenkinsPods_eq, hparse]
  · intro stdout doc hex hparse
    subst hex
    simp [getStatefulSets_eq, hparse]

/-- C6 witness: the fetchers evaluated on a "No resources found" failure
and on a propagated "Unauthorized" failure. -/
theorem fetchers_error_handling_witness :
    getJenkinsPods (.error "No resources found in namespace cloudbees-core")
      (fun _ => .error "never parsed") = .ok [] ∧
    getStatefulSets (.error "No resources found in namespace cloudbees-core")
      (fun _ => .error "never parsed") = .ok [] ∧
    getJenkinsPods (.error "Unauthorized") (fun _ => .error "never parsed")
      = .error "Unauthorized" ∧
    getStatefulSets (.error "Unauthorized") (fun _ => .error "never parsed")
      = .error "Unauthorized" := by
  have h1 := (fetchers_error_handling
    (.error "No resources found in namespace cloudbees-core")
    (fun _ => .error "never parsed") (fun _ => .error "never parsed")).1
    "No resources found in namespace cloudbees-core" rfl
  have h2 := (fetchers_error_handling (.error "Unauthorized")
    (fun _ => .error "never parsed") (fun _ => .error "never parsed")).1
    "Unauthorized" rfl
  exact ⟨(h1.1 (by decide)).1, (h1.1 (by decide)).2,
    (h2.2 (by decide)).1, (h2.2 (by decide)).2⟩

/-- C10: a response that parses but has no `items` field makes each
fetcher return the empty list rather than an error, exactly as the
"no matching resources" outcome does at the fetcher's interface. -/
theorem fetchers_missing_items_field
    (execResult : Except String String)
    (parsePods : String → Except String PodListDoc)
    (parseSts : String → Except String StsListDoc) :
    (∀ stdout, execResult = .ok stdout → parsePods stdout = .ok ⟨none⟩ →
      getJenkinsPods execResult parsePods = .ok []) ∧
    (∀ stdout, execResult = .ok stdout → parseSts stdout = .ok ⟨none⟩ →
      getStatefulSets execResult parseSts = .ok []) := by
  constructor
  · intro stdout hex hparse
    subst hex
    simp [getJenkinsPods_eq, hparse]
  · intro stdout hex hparse
    subst hex
    simp [getStatefulSets_eq, hparse]

/-- C10 witness: both fetchers evaluated on a parseable response whose
document lacks the items field. -/
theorem fetchers_missing_items_field_witness :
    getJenkinsPods (.ok "{}") (fun _ => .ok ⟨none⟩) = .ok [] ∧
    getStatefulSets (.ok "{}") (fun _ => .ok ⟨none⟩) = .ok [] := by
  exact ⟨(fetchers_missing_items_field (.ok "{}") (fun _ => .ok ⟨none⟩)
      (fun _ => .ok ⟨none⟩)).1 "{}" rfl rfl,
    (fetchers_missing_items_field (.ok "{}") (fun _ => .ok ⟨none⟩)
      (fun _ => .ok ⟨none⟩)).2 "{}" rfl rfl⟩

/-- When filtering keeps exactly one element, `find?` returns it. -/
theorem find?_eq_of_filter_eq_singleton {α : Type} (p : α → Bool) (a : α) :
    ∀ l : List α, l.filter p = [a] → l.find? p = some a := by
  intro l
  induction l with
  | nil => intro h; simp at h
  | cons x xs ih =>
    intro h
    by_cases hx : p x
    · rw [List.filter_cons_of_pos hx] at h
      injection h with h1 h2
      rw [List.find?_cons_of_pos _ hx, h1]
    · rw [List.filter_cons_of_neg hx] at h
      rw [List.find?_cons_of_neg _ hx]
      exact ih h

/-- C9: affiliation detection reports false with no name when the
owner-reference sequence is absent or empty, and reports true together
with the reference's name when the sequence holds exactly one entry of
kind "StatefulSet". -/
theorem statefulset_affiliation :
    (isStatefulSetPod none = false ∧ statefulSetNameOf none = none ∧
     isStatefulSetPod (some []) = false ∧ statefulSetNameOf (some []) = none) ∧
    (∀ refs r, refs.filter (fun x => x.kind = "StatefulSet") = [r] →
      isStatefulSetPod (some refs) = true ∧
      statefulSetNameOf (some refs) = some r.name) := by
  constructor
  · exact ⟨rfl, rfl, rfl, rfl⟩
  · intro refs r h
    have hmem : r ∈ refs.filter (fun x => x.kind = "StatefulSet") := by
      rw [h]
      simp
    rw [List.mem_filter] at hmem
    have hany : refs.any (fun x => x.kind = "StatefulSet") = true := by
      simp only [List.any_eq_true]
      exact ⟨r, hmem.1, hmem.2⟩
    have hfind : refs.find? (fun x => x.kind = "StatefulSet") = some r :=
      find?_eq_of_filter_eq_singleton _ r refs h
    constructor
    · simp [isStatefulSetPod, hany]
    · simp [statefulSetNameOf, isStatefulSetPod, hany, hfind]

/-- C9 witness: affiliation detection on an owner-reference list whose
single StatefulSet entry names "jenkins". -/
theorem statefulset_affiliation_witness :
    isStatefulSetPod (some [⟨"ReplicaSet", "web"⟩, ⟨"StatefulSet", "jenkins"⟩]) = true ∧
    statefulSetNameOf (some [⟨"ReplicaSet", "web"⟩, ⟨"StatefulSet", "jenkins"⟩])
      = some "jenkins" ∧
    isStatefulSetPod (some []) = false := by
  have h := statefulset_affiliation.2
    [⟨"ReplicaSet", "web"⟩, ⟨"StatefulSet", "jenkins"⟩]
    ⟨"StatefulSet", "jenkins"⟩ (by decide)
  exact ⟨h.1, h.2, statefulset_affiliation.1.2.2.1⟩

/-- C2 witness: the verdict evaluated on a single running pod, on the
empty list, and on a single failed pod. -/
theorem summaryHealthStatus_verdict_witness :
    summaryHealthStatus [⟨"a", "Running", none, none, none, none, none⟩] = "HEALTHY" ∧
    summaryHealthStatus [] = "DEGRADED" ∧
    summaryHealthStatus [⟨"a", "Failed", none, none, none, none, none⟩] = "UNHEALTHY" := by
  refine ⟨?_, ?_, ?_⟩
  · exact (summaryHealthStatus_verdict _).1.mpr ⟨by decide, by decide⟩
  · exact (summaryHealthStatus_verdict []).2.2.mpr ⟨by decide, by decide⟩
  · exact (summaryHealthStatus_verdict _).2.1.mpr ⟨by decide, by decide⟩
